import Mathlib

/-!
Shallow embedding of the `defender` crate: a guarded single-slot value cell
with a tri-state `State` (UnSet / Value / Killed), a timeout policy
(`Timeout`), a blocking guard (`SyncGuard`, src/sync.rs) and a cooperative
guard (`AsyncGuard`, src/async.rs).

Modelling conventions:
* Instants and durations are natural numbers (milliseconds, say); the Rust
  `t0.elapsed() <= timeout` at wall-clock time `now` becomes `now - t ≤ d`
  in truncated `Nat` subtraction (real elapsed time is never negative).
* The shared `Arc<RwLock<State<T>>>` cell is modelled by the cell state
  carried in the guard record; clones of a guard alias the same cell, so a
  statement quantified over the guard state covers every clone.
* The stored `Arc<T>` handle is modelled by the value itself (observation
  returns the value, `reset` returns an owned copy).
* The blocking `wait` loops are modelled as observation-sequence functions:
  `obs n` is the cell state seen by the n-th read of the loop (the cell may
  be mutated concurrently between reads) and `times n` is the elapsed time
  since this call's own start instant when the n-th loop condition is
  checked.  `fuel` bounds the number of iterations we unfold; `none` means
  the loop is still running after `fuel` reads.
* The async `poll` is a function of the guard state and the current instant
  `now`; its output records the `Poll` result, the deadline marker `t0`
  after the call, and whether `cx.waker().wake_by_ref()` was invoked.
-/

namespace Defender

/-- The tri-state cell of src/state.rs: `UnSet | Value(Arc<T>) | Killed`. -/
inductive State (α : Type) where
  | unSet : State α
  | value : α → State α
  | killed : State α
  deriving DecidableEq

/-- `State::default()` is `UnSet` (src/state.rs). -/
def State.default (α : Type) : State α := State.unSet

/-- The error taxonomy of src/error.rs (the source spells the third kind
`UnableToKilled`). -/
inductive GuardError where
  | timeout : GuardError
  | killed : GuardError
  | unableToKilled : GuardError
  deriving DecidableEq

/-- The timeout policy of src/config.rs: `Instant | Duration(d) | Infinite`. -/
inductive Timeout where
  | instant : Timeout
  | duration : Nat → Timeout
  | infinite : Timeout
  deriving DecidableEq

/-- `GuardConfig` of src/config.rs. -/
structure GuardConfig where
  timeout : Timeout
  deriving DecidableEq

/-- `GuardConfig::default()` selects the `Infinite` (unbounded) policy. -/
def GuardConfig.default : GuardConfig := { timeout := Timeout.infinite }

/-- The blocking guard of src/sync.rs: shared cell plus immutable config. -/
structure SyncGuard (α : Type) where
  value : State α
  config : GuardConfig
  deriving DecidableEq

/-- `SyncGuard::default()`: fresh `UnSet` cell, default (Infinite) config. -/
def SyncGuard.default (α : Type) : SyncGuard α :=
  { value := State.default α, config := GuardConfig.default }

/-- `SyncGuard::new(config)`: the given config, everything else default. -/
def SyncGuard.new (α : Type) (config : GuardConfig) : SyncGuard α :=
  { SyncGuard.default α with config := config }

/-- The cooperative guard of src/async.rs: shared cell, immutable config,
and the shared lazily-initialized deadline marker `t0`. -/
structure AsyncGuard (α : Type) where
  value : State α
  config : GuardConfig
  t0 : Option Nat
  deriving DecidableEq

/-- `AsyncGuard::default()`: `UnSet` cell, default config, empty marker. -/
def AsyncGuard.default (α : Type) : AsyncGuard α :=
  { value := State.default α, config := GuardConfig.default, t0 := none }

/-- `AsyncGuard::new(config)`: the given config, everything else default. -/
def AsyncGuard.new (α : Type) (config : GuardConfig) : AsyncGuard α :=
  { AsyncGuard.default α with config := config }

/-- `SyncGuard::set` (src/sync.rs): `Killed` fails with `Killed` and leaves
the cell unchanged; any other state is overwritten with `Value(value)`. -/
def SyncGuard.set {α : Type} (g : SyncGuard α) (v : α) :
    Except GuardError Unit × SyncGuard α :=
  match g.value with
  | State.killed => (Except.error GuardError.killed, g)
  | _ => (Except.ok (), { g with value := State.value v })

/-- `SyncGuard::kill` (src/sync.rs): `Value(_)` fails with `UnableToKilled`
and leaves the cell unchanged; any other state becomes `Killed`. -/
def SyncGuard.kill {α : Type} (g : SyncGuard α) :
    Except GuardError Unit × SyncGuard α :=
  match g.value with
  | State.value _ => (Except.error GuardError.unableToKilled, g)
  | _ => (Except.ok (), { g with value := State.killed })

/-- `SyncGuard::reset` (src/sync.rs): `UnSet`/`Killed` return `Ok(None)`
unchanged; `Value(val)` hands back an owned copy and clears to `UnSet`. -/
def SyncGuard.reset {α : Type} (g : SyncGuard α) :
    Except GuardError (Option α) × SyncGuard α :=
  match g.value with
  | State.unSet => (Except.ok none, g)
  | State.killed => (Except.ok none, g)
  | State.value v => (Except.ok (some v), { g with value := State.unSet })

/-- `AsyncGuard::set` (src/async.rs); same transition rule as the sync
flavor, the marker `t0` is untouched. -/
def AsyncGuard.set {α : Type} (g : AsyncGuard α) (v : α) :
    Except GuardError Unit × AsyncGuard α :=
  match g.value with
  | State.killed => (Except.error GuardError.killed, g)
  | _ => (Except.ok (), { g with value := State.value v })

/-- `AsyncGuard::kill` (src/async.rs); same transition rule as the sync
flavor, the marker `t0` is untouched. -/
def AsyncGuard.kill {α : Type} (g : AsyncGuard α) :
    Except GuardError Unit × AsyncGuard α :=
  match g.value with
  | State.value _ => (Except.error GuardError.unableToKilled, g)
  | _ => (Except.ok (), { g with value := State.killed })

/-- `AsyncGuard::reset` (src/async.rs); same transition rule as the sync
flavor, the marker `t0` is untouched. -/
def AsyncGuard.reset {α : Type} (g : AsyncGuard α) :
    Except GuardError (Option α) × AsyncGuard α :=
  match g.value with
  | State.unSet => (Except.ok none, g)
  | State.killed => (Except.ok none, g)
  | State.value v => (Except.ok (some v), { g with value := State.unSet })

/-- One read of the cell under the `Instant` policy (the shared body of
`SyncGuard::wait`'s `Timeout::Instant` arm and of the async poll's
`Timeout::Instant` arm): `Value` yields the handle, `UnSet` is a `Timeout`
failure, `Killed` a `Killed` failure. -/
def readInstant {α : Type} (s : State α) : Except GuardError α :=
  match s with
  | State.value v => Except.ok v
  | State.unSet => Except.error GuardError.timeout
  | State.killed => Except.error GuardError.killed

/-- The `Timeout::Infinite` retry loop of `SyncGuard::wait` (src/sync.rs):
read the cell at successive instants; `Value` breaks with the handle,
`Killed` breaks with the `Killed` failure, `UnSet` retries.  `obs n` is the
state seen by the n-th read; `fuel` bounds the unfolding. -/
def waitInfiniteAux {α : Type} (obs : Nat → State α) :
    Nat → Nat → Option (Except GuardError α)
  | _, 0 => none
  | n, fuel + 1 =>
    match obs n with
    | State.value v => some (Except.ok v)
    | State.killed => some (Except.error GuardError.killed)
    | State.unSet => waitInfiniteAux obs (n + 1) fuel

/-- The `Timeout::Duration(timeout)` loop of `SyncGuard::wait`
(src/sync.rs): while the elapsed time of this call (`times n` at the n-th
check, measured from the start instant recorded when the call began) is
`≤ d`, read the cell (`Value` returns, `Killed` fails, `UnSet` retries);
as soon as the check finds elapsed time `> d` the loop exits and the call
fails with `Timeout`. -/
def waitDurationAux {α : Type} (d : Nat) (times : Nat → Nat)
    (obs : Nat → State α) : Nat → Nat → Option (Except GuardError α)
  | _, 0 => none
  | n, fuel + 1 =>
    if times n ≤ d then
      match obs n with
      | State.value v => some (Except.ok v)
      | State.killed => some (Except.error GuardError.killed)
      | State.unSet => waitDurationAux d times obs (n + 1) fuel
    else some (Except.error GuardError.timeout)

/-- `SyncGuard::wait` (src/sync.rs), dispatching on the policy.  Each call
receives its own `times` function: the start instant is recorded at the
moment the call begins, so elapsed time is per-call, never shared. -/
def SyncGuard.wait {α : Type} (g : SyncGuard α) (times : Nat → Nat)
    (obs : Nat → State α) (fuel : Nat) : Option (Except GuardError α) :=
  match g.config.timeout with
  | Timeout.instant => some (readInstant (obs 0))
  | Timeout.infinite => waitInfiniteAux obs 0 fuel
  | Timeout.duration d => waitDurationAux d times obs 0 fuel

/-- `std::task::Poll`. -/
inductive Poll (α : Type) where
  | ready : α → Poll α
  | pending : Poll α
  deriving DecidableEq

/-- Equality of `Except` results is decidable when it is on both sides. -/
instance {ε α : Type} [DecidableEq ε] [DecidableEq α] :
    DecidableEq (Except ε α) := fun a b =>
  match a, b with
  | Except.ok x, Except.ok y =>
    if h : x = y then isTrue (by rw [h]) else
      isFalse (fun hc => h (Except.ok.inj hc))
  | Except.ok _, Except.error _ => isFalse (fun hc => Except.noConfusion hc)
  | Except.error _, Except.ok _ => isFalse (fun hc => Except.noConfusion hc)
  | Except.error x, Except.error y =>
    if h : x = y then isTrue (by rw [h]) else
      isFalse (fun hc => h (Except.error.inj hc))

/-- Everything one call to the async `poll` produces: the `Poll` value it
returns, the deadline marker after the call, and whether it invoked
`cx.waker().wake_by_ref()` before returning. -/
structure PollOut (α : Type) where
  result : Poll (Except GuardError α)
  t0 : Option Nat
  woke : Bool
  deriving DecidableEq

/-- The marker-initialization prelude of the `Timeout::Duration` arm of
`poll` (src/async.rs): if the shared marker is still `None`, store the
current instant into it; otherwise leave it alone. -/
def markerAfterInit (t0 : Option Nat) (now : Nat) : Option Nat :=
  if t0.isNone then some now else t0

/-- `<&AsyncGuard as Future>::poll` (src/async.rs) at current instant
`now`.  `Instant`: decide from one read, always ready.  `Infinite`:
`Value`/`Killed` ready, `UnSet` wakes its own waker and returns `Pending`.
`Duration(d)`: initialize the shared marker if empty, then if elapsed
since the marker is `≤ d` decide like `Infinite` except that the `UnSet`
arm returns `Pending` without waking; if elapsed `> d`, ready with the
`Timeout` failure regardless of the cell. -/
def AsyncGuard.poll {α : Type} (g : AsyncGuard α) (now : Nat) : PollOut α :=
  match g.config.timeout with
  | Timeout.instant =>
    match g.value with
    | State.value v => ⟨Poll.ready (Except.ok v), g.t0, false⟩
    | State.unSet => ⟨Poll.ready (Except.error GuardError.timeout), g.t0, false⟩
    | State.killed => ⟨Poll.ready (Except.error GuardError.killed), g.t0, false⟩
  | Timeout.infinite =>
    match g.value with
    | State.value v => ⟨Poll.ready (Except.ok v), g.t0, false⟩
    | State.killed => ⟨Poll.ready (Except.error GuardError.killed), g.t0, false⟩
    | State.unSet => ⟨Poll.pending, g.t0, true⟩
  | Timeout.duration d =>
    let m := markerAfterInit g.t0 now
    match m with
    | some t =>
      if now - t ≤ d then
        match g.value with
        | State.value v => ⟨Poll.ready (Except.ok v), m, false⟩
        | State.killed => ⟨Poll.ready (Except.error GuardError.killed), m, false⟩
        | State.unSet => ⟨Poll.pending, m, false⟩
      else ⟨Poll.ready (Except.error GuardError.timeout), m, false⟩
    | none => ⟨Poll.pending, m, false⟩

/-- A copy of `AsyncGuard.poll` whose `None` marker arm (the final
`None => Poll::Pending` arm of the `Duration` branch in src/async.rs)
returns a deliberately different output.  Proving it everywhere equal to
`AsyncGuard.poll` shows that arm is unreachable in sequential execution. -/
def AsyncGuard.pollNoNoneArm {α : Type} (g : AsyncGuard α) (now : Nat) :
    PollOut α :=
  match g.config.timeout with
  | Timeout.instant =>
    match g.value with
    | State.value v => ⟨Poll.ready (Except.ok v), g.t0, false⟩
    | State.unSet => ⟨Poll.ready (Except.error GuardError.timeout), g.t0, false⟩
    | State.killed => ⟨Poll.ready (Except.error GuardError.killed), g.t0, false⟩
  | Timeout.infinite =>
    match g.value with
    | State.value v => ⟨Poll.ready (Except.ok v), g.t0, false⟩
    | State.killed => ⟨Poll.ready (Except.error GuardError.killed), g.t0, false⟩
    | State.unSet => ⟨Poll.pending, g.t0, true⟩
  | Timeout.duration d =>
    let m := markerAfterInit g.t0 now
    match m with
    | some t =>
      if now - t ≤ d then
        match g.value with
        | State.value v => ⟨Poll.ready (Except.ok v), m, false⟩
        | State.killed => ⟨Poll.ready (Except.error GuardError.killed), m, false⟩
        | State.unSet => ⟨Poll.pending, m, false⟩
      else ⟨Poll.ready (Except.error GuardError.timeout), m, false⟩
    | none => ⟨Poll.ready (Except.error GuardError.unableToKilled), some 0, true⟩

/-- Any result the `Infinite` retry loop terminates with comes from a read
that found the cell decided: a `Value` read gives `Ok` of that value, a
`Killed` read gives the `Killed` failure.  In particular the loop never
produces `Timeout`. -/
theorem waitInfiniteAux_spec {α : Type} (obs : Nat → State α) :
    ∀ fuel n r, waitInfiniteAux obs n fuel = some r →
      (∃ m v, obs m = State.value v ∧ r = Except.ok v)
      ∨ (∃ m, obs m = State.killed ∧ r = Except.error GuardError.killed) := by
  intro fuel
  induction fuel with
  | zero =>
    intro n r h
    simp [waitInfiniteAux] at h
  | succ fuel ih =>
    intro n r h
    simp only [waitInfiniteAux] at h
    split at h
    · next v hv =>
      cases h
      exact Or.inl ⟨n, v, hv, rfl⟩
    · next hv =>
      cases h
      exact Or.inr ⟨n, hv, rfl⟩
    · next hv =>
      exact ih (n + 1) r h

/-- Claim C4: `kill()` fails with `UnableToKilled` and leaves the cell
unchanged exactly when the cell holds a `Value`; on `UnSet` or `Killed` it
succeeds and sets the state to `Killed` (idempotent on `Killed`).  Stated
for both the blocking and the cooperative guard. -/
theorem C4_kill_rules (α : Type) (g : SyncGuard α) (a : AsyncGuard α) :
    (((g.kill).1 = Except.error GuardError.unableToKilled ∧ (g.kill).2 = g)
      ↔ ∃ v, g.value = State.value v)
    ∧ ((g.value = State.unSet ∨ g.value = State.killed) →
        g.kill = (Except.ok (), { g with value := State.killed }))
    ∧ (((a.kill).1 = Except.error GuardError.unableToKilled ∧ (a.kill).2 = a)
      ↔ ∃ v, a.value = State.value v)
    ∧ ((a.value = State.unSet ∨ a.value = State.killed) →
        a.kill = (Except.ok (), { a with value := State.killed })) := by
  rcases g with ⟨s, c⟩
  rcases a with ⟨s2, c2, t0⟩
  refine ⟨?_, ?_, ?_, ?_⟩
  · cases s <;> simp [SyncGuard.kill]
  · rintro (h | h) <;> cases h <;> simp [SyncGuard.kill]
  · cases s2 <;> simp [AsyncGuard.kill]
  · rintro (h | h) <;> cases h <;> simp [AsyncGuard.kill]

/-- Witness for C4 at a concrete input: killing a pending (`UnSet`) cell
succeeds and leaves the cell `Killed`. -/
theorem C4_kill_rules_witness :
    (SyncGuard.mk (State.unSet : State Nat) GuardConfig.default).kill
      = (Except.ok (), SyncGuard.mk State.killed GuardConfig.default) :=
  (C4_kill_rules Nat (SyncGuard.mk State.unSet GuardConfig.default)
    (AsyncGuard.mk State.unSet GuardConfig.default none)).2.1 (Or.inl rfl)

/-- Claim C5: `set(v)` fails with `Killed` and leaves the cell unchanged
when the state is `Killed`; otherwise it succeeds and the cell becomes
`Value(v)`, silently replacing any stored value.  Both flavors. -/
theorem C5_set_rules (α : Type) (g : SyncGuard α) (a : AsyncGuard α) (v : α) :
    (g.value = State.killed → g.set v = (Except.error GuardError.killed, g))
    ∧ (g.value ≠ State.killed →
        g.set v = (Except.ok (), { g with value := State.value v }))
    ∧ (a.value = State.killed → a.set v = (Except.error GuardError.killed, a))
    ∧ (a.value ≠ State.killed →
        a.set v = (Except.ok (), { a with value := State.value v })) := by
  rcases g with ⟨s, c⟩
  rcases a with ⟨s2, c2, t0⟩
  refine ⟨?_, ?_, ?_, ?_⟩
  · intro h; cases h; simp [SyncGuard.set]
  · intro h; cases s <;> simp_all [SyncGuard.set]
  · intro h; cases h; simp [AsyncGuard.set]
  · intro h; cases s2 <;> simp_all [AsyncGuard.set]

/-- Witness for C5 at a concrete input: overwriting a stored value 1 with
2 succeeds (last-writer-wins). -/
theorem C5_set_rules_witness :
    (SyncGuard.mk (State.value 1) GuardConfig.default).set 2
      = (Except.ok (), SyncGuard.mk (State.value 2) GuardConfig.default) :=
  (C5_set_rules Nat (SyncGuard.mk (State.value 1) GuardConfig.default)
    (AsyncGuard.mk State.unSet GuardConfig.default none) 2).2.1 (by decide)

/-- Claim C6, counterexample: on a guard whose cell is already `Killed`,
`set(42)` fails and leaves the cell `Killed`, so the following `reset()`
returns `Ok(None)`, not `Some(42)`, and the cell does not end up `UnSet`:
the round trip does not hold for *every* guard. -/
theorem C6_counterexample :
    (((SyncGuard.mk State.killed GuardConfig.default : SyncGuard Nat).set 42).2.reset
      = (Except.ok none, SyncGuard.mk State.killed GuardConfig.default))
    ∧ ((((SyncGuard.mk State.killed GuardConfig.default : SyncGuard Nat).set 42).2.reset).1
      ≠ Except.ok (some 42)) := by
  exact ⟨rfl, by decide⟩

/-- Claim C6 as amended: whenever the cell is not currently `Killed`
(i.e. whenever `set` succeeds), `set(v)` followed by `reset()` returns
`Some(v)` and leaves the cell `UnSet`; `reset()` on `UnSet` or `Killed`
returns `None` and leaves the state unchanged.  Both flavors. -/
theorem C6_reset_roundtrip (α : Type) (g : SyncGuard α) (a : AsyncGuard α)
    (v : α) :
    (g.value ≠ State.killed →
      (g.set v).2.reset = (Except.ok (some v), { g with value := State.unSet }))
    ∧ ((g.value = State.unSet ∨ g.value = State.killed) →
        g.reset = (Except.ok none, g))
    ∧ (a.value ≠ State.killed →
      (a.set v).2.reset = (Except.ok (some v), { a with value := State.unSet }))
    ∧ ((a.value = State.unSet ∨ a.value = State.killed) →
        a.reset = (Except.ok none, a)) := by
  rcases g with ⟨s, c⟩
  rcases a with ⟨s2, c2, t0⟩
  refine ⟨?_, ?_, ?_, ?_⟩
  · intro h; cases s <;> simp_all [SyncGuard.set, SyncGuard.reset]
  · rintro (h | h) <;> cases h <;> simp [SyncGuard.reset]
  · intro h; cases s2 <;> simp_all [AsyncGuard.set, AsyncGuard.reset]
  · rintro (h | h) <;> cases h <;> simp [AsyncGuard.reset]

/-- Witness for the amended C6 at a concrete input: `set 42` then `reset`
on a fresh guard hands back `Some 42` and an `UnSet` cell. -/
theorem C6_reset_roundtrip_witness :
    ((SyncGuard.mk (State.unSet : State Nat) GuardConfig.default).set 42).2.reset
      = (Except.ok (some 42), SyncGuard.mk State.unSet GuardConfig.default) :=
  (C6_reset_roundtrip Nat (SyncGuard.mk State.unSet GuardConfig.default)
    (AsyncGuard.mk State.unSet GuardConfig.default none) 42).1 (by decide)

/-- Claim C9: for every starting cell state, config and input, the sync
and async flavors of `set`, `kill` and `reset` return the same `Result`
and perform the same cell transition; `AsyncGuard`'s extra deadline marker
is untouched by all three. -/
theorem C9_flavors_equivalent (α : Type) (s : State α) (c : GuardConfig)
    (t : Option Nat) (v : α) :
    (((SyncGuard.mk s c).set v).1 = ((AsyncGuard.mk s c t).set v).1
      ∧ ((SyncGuard.mk s c).set v).2.value = ((AsyncGuard.mk s c t).set v).2.value
      ∧ ((AsyncGuard.mk s c t).set v).2.t0 = t)
    ∧ (((SyncGuard.mk s c).kill).1 = ((AsyncGuard.mk s c t).kill).1
      ∧ ((SyncGuard.mk s c).kill).2.value = ((AsyncGuard.mk s c t).kill).2.value
      ∧ ((AsyncGuard.mk s c t).kill).2.t0 = t)
    ∧ (((SyncGuard.mk s c).reset).1 = ((AsyncGuard.mk s c t).reset).1
      ∧ ((SyncGuard.mk s c).reset).2.value = ((AsyncGuard.mk s c t).reset).2.value
      ∧ ((AsyncGuard.mk s c t).reset).2.t0 = t) := by
  cases s <;>
    simp [SyncGuard.set, AsyncGuard.set, SyncGuard.kill, AsyncGuard.kill,
      SyncGuard.reset, AsyncGuard.reset]

/-- Claim C7: under the `Instant` policy one observation decides from the
single read `obs 0` (the result does not depend on the clock, the fuel, or
any later read — in particular fuel 0 suffices: no retry), mapping `Value`
to `Ok`, `UnSet` to `Timeout`, `Killed` to `Killed`; the cooperative poll
is always `Ready`, never wakes and never touches the marker. -/
theorem C7_instant_policy (α : Type) (g : SyncGuard α) (a : AsyncGuard α)
    (times times2 : Nat → Nat) (obs obs2 : Nat → State α)
    (fuel fuel2 now : Nat) :
    (g.config.timeout = Timeout.instant →
      (g.wait times obs fuel = some (readInstant (obs 0))
       ∧ (obs 0 = obs2 0 → g.wait times obs fuel = g.wait times2 obs2 fuel2)
       ∧ (∀ v, obs 0 = State.value v →
           g.wait times obs fuel = some (Except.ok v))
       ∧ (obs 0 = State.unSet →
           g.wait times obs fuel = some (Except.error GuardError.timeout))
       ∧ (obs 0 = State.killed →
           g.wait times obs fuel = some (Except.error GuardError.killed))))
    ∧ (a.config.timeout = Timeout.instant →
        ((a.poll now).woke = false ∧ (a.poll now).t0 = a.t0
         ∧ (a.poll now).result = Poll.ready (readInstant a.value))) := by
  rcases g with ⟨s, ⟨tg⟩⟩
  rcases a with ⟨s2, ⟨ta⟩, t0⟩
  constructor
  · intro h
    cases h
    refine ⟨rfl, ?_, ?_, ?_, ?_⟩
    · intro h2; simp [SyncGuard.wait, h2]
    · intro v hv; simp [SyncGuard.wait, hv, readInstant]
    · intro hv; simp [SyncGuard.wait, hv, readInstant]
    · intro hv; simp [SyncGuard.wait, hv, readInstant]
  · intro h
    cases h
    cases s2 <;> simp [AsyncGuard.poll, readInstant]

/-- Witness for C7 at a concrete input: an `Instant` blocking wait over a
cell holding 7 returns the handle with zero fuel (no retry ever taken). -/
theorem C7_instant_policy_witness :
    (SyncGuard.mk (State.unSet : State Nat) (GuardConfig.mk Timeout.instant)).wait
      (fun _ => 0) (fun _ => State.value 7) 0 = some (Except.ok 7) :=
  (((C7_instant_policy Nat
      (SyncGuard.mk State.unSet (GuardConfig.mk Timeout.instant))
      (AsyncGuard.mk State.unSet (GuardConfig.mk Timeout.instant) none)
      (fun _ => 0) (fun _ => 0) (fun _ => State.value 7)
      (fun _ => State.value 7) 0 0 0).1 rfl).2.2.1) 7 rfl

/-- Claim C8: parameterless default construction of either flavor selects
the `Infinite` (unbounded) policy, and the unbounded retry loop never
fails with `Timeout`: while the cell reads `UnSet` it retries, and any
result it terminates with is either the value of a `Value` read or the
`Killed` failure from a `Killed` read. -/
theorem C8_default_unbounded_never_timeout (α : Type) (obs : Nat → State α)
    (n fuel : Nat) (r : Except GuardError α) :
    ((SyncGuard.default α).config.timeout = Timeout.infinite
      ∧ (AsyncGuard.default α).config.timeout = Timeout.infinite
      ∧ GuardConfig.default.timeout = Timeout.infinite)
    ∧ (obs n = State.unSet →
        waitInfiniteAux obs n (fuel + 1) = waitInfiniteAux obs (n + 1) fuel)
    ∧ (waitInfiniteAux obs n fuel = some r →
        (r ≠ Except.error GuardError.timeout
         ∧ ((∃ m v, obs m = State.value v ∧ r = Except.ok v)
            ∨ (∃ m, obs m = State.killed ∧ r = Except.error GuardError.killed)))) := by
  refine ⟨⟨rfl, rfl, rfl⟩, ?_, ?_⟩
  · intro h; simp [waitInfiniteAux, h]
  · intro h
    have hspec := waitInfiniteAux_spec obs fuel n r h
    refine ⟨?_, hspec⟩
    rcases hspec with ⟨m, v, hm, rfl⟩ | ⟨m, hm, rfl⟩ <;> simp

/-- Witness for C8 at a concrete input: the unbounded loop over a `Killed`
cell terminates with the `Killed` failure, which is not `Timeout`. -/
theorem C8_default_unbounded_never_timeout_witness :
    (Except.error GuardError.killed : Except GuardError Nat)
        ≠ Except.error GuardError.timeout
    ∧ ((∃ m v, (fun (_ : Nat) => (State.killed : State Nat)) m = State.value v
          ∧ (Except.error GuardError.killed : Except GuardError Nat) = Except.ok v)
       ∨ (∃ m, (fun (_ : Nat) => (State.killed : State Nat)) m = State.killed
          ∧ (Except.error GuardError.killed : Except GuardError Nat)
              = Except.error GuardError.killed)) :=
  (C8_default_unbounded_never_timeout Nat (fun _ => State.killed) 0 1
    (Except.error GuardError.killed)).2.2 rfl

/-- Claim C3: the bounded blocking wait, whose clock `times` is measured
from the start instant this very call recorded, returns the value as soon
as a within-budget read finds `Value`, fails `Killed` as soon as one finds
`Killed`, retries on `UnSet`, and fails `Timeout` the moment the check
finds elapsed time `> d`, whatever the cell holds then; concretely, with
budget 60 and a cell still `UnSet` while this call's clock runs 0, 40, 80,
the first call times out, and a second call — with its own fresh clock —
then sees the value 42 and returns it. -/
theorem C3_sync_bounded_wait (α : Type) (d fuel n : Nat) (times : Nat → Nat)
    (obs : Nat → State α) :
    (∀ v, times n ≤ d → obs n = State.value v →
        waitDurationAux d times obs n (fuel + 1) = some (Except.ok v))
    ∧ (times n ≤ d → obs n = State.killed →
        waitDurationAux d times obs n (fuel + 1)
          = some (Except.error GuardError.killed))
    ∧ (times n ≤ d → obs n = State.unSet →
        waitDurationAux d times obs n (fuel + 1)
          = waitDurationAux d times obs (n + 1) fuel)
    ∧ (d < times n →
        waitDurationAux d times obs n (fuel + 1)
          = some (Except.error GuardError.timeout))
    ∧ ((SyncGuard.new Nat (GuardConfig.mk (Timeout.duration 60))).wait
        (fun k => 40 * k) (fun _ => State.unSet) 3
        = some (Except.error GuardError.timeout))
    ∧ ((SyncGuard.new Nat (GuardConfig.mk (Timeout.duration 60))).wait
        (fun _ => 0) (fun _ => State.value 42) 1 = some (Except.ok 42)) := by
  refine ⟨?_, ?_, ?_, ?_, by decide, by decide⟩
  · intro v h1 h2; simp [waitDurationAux, h1, h2]
  · intro h1 h2; simp [waitDurationAux, h1, h2]
  · intro h1 h2; simp [waitDurationAux, h1, h2]
  · intro h1; simp [waitDurationAux, Nat.not_le.mpr h1]

/-- Witness for C3 at a concrete input: with budget 5 and elapsed time 10
at the first check, the bounded wait fails with `Timeout`. -/
theorem C3_sync_bounded_wait_witness :
    waitDurationAux 5 (fun _ => 10) (fun _ => (State.unSet : State Nat)) 0 1
      = some (Except.error GuardError.timeout) :=
  (C3_sync_bounded_wait Nat 5 0 0 (fun _ => 10)
    (fun _ => State.unSet)).2.2.2.1 (by decide)

/-- Claim C2: under `Duration(d)` the shared marker is written exactly
once — a poll that finds it empty stores the current instant, a poll that
finds it set leaves it alone, and `set`/`kill`/`reset` never touch it —
and once elapsed-since-marker exceeds `d`, a poll is `Ready` with the
`Timeout` failure whatever the cell state (so also after a later
transition to `Value` or `Killed`), for the guard and every clone, since
clones alias the same cell and marker. -/
theorem C2_shared_deadline_marker (α : Type) (g : AsyncGuard α)
    (now t d : Nat) (v : α) :
    (g.config.timeout = Timeout.duration d → g.t0 = none →
        (g.poll now).t0 = some now)
    ∧ (g.t0 = some t → (g.poll now).t0 = some t)
    ∧ ((g.set v).2.t0 = g.t0 ∧ (g.kill).2.t0 = g.t0 ∧ (g.reset).2.t0 = g.t0)
    ∧ (g.config.timeout = Timeout.duration d → g.t0 = some t →
        d < now - t →
        (g.poll now).result = Poll.ready (Except.error GuardError.timeout)) := by
  rcases g with ⟨s, ⟨tmo⟩, t0⟩
  refine ⟨?_, ?_, ?_, ?_⟩
  · intro h1 h2
    cases h1
    cases h2
    cases s <;> simp [AsyncGuard.poll, markerAfterInit]
  · intro h
    cases h
    cases tmo <;> cases s <;>
      simp [AsyncGuard.poll, markerAfterInit] <;>
      split <;> simp
  · cases s <;>
      simp [AsyncGuard.set, AsyncGuard.kill, AsyncGuard.reset]
  · intro h1 h2 h3
    cases h1
    cases h2
    simp [AsyncGuard.poll, markerAfterInit, Nat.not_le.mpr h3]

/-- Witness for C2 at a concrete input: marker 0, budget 3, polled at
instant 10 with the cell now holding the value 7 — the poll still reports
`Timeout`. -/
theorem C2_shared_deadline_marker_witness :
    ((AsyncGuard.mk (State.value 7) (GuardConfig.mk (Timeout.duration 3))
        (some 0)).poll 10).result
      = Poll.ready (Except.error GuardError.timeout) :=
  (C2_shared_deadline_marker Nat
    (AsyncGuard.mk (State.value 7) (GuardConfig.mk (Timeout.duration 3))
      (some 0)) 10 0 3 0).2.2.2 rfl rfl (by decide)

/-- Claim C1, the failing input evaluated on the code: a `Duration`-policy
poll on a pending cell within budget (marker 0, budget 10, now 5) returns
`Pending` but does NOT wake its own waker, while the `Infinite`-policy
poll on a pending cell returns `Pending` after waking its waker — the
source's `Duration` arm omits the `wake_by_ref` self-re-schedule that the
claim (and the spec's "behave like Unbounded / retry signal") requires. -/
theorem C1_bounded_pending_does_not_wake :
    ((AsyncGuard.mk State.unSet (GuardConfig.mk (Timeout.duration 10))
        (some 0) : AsyncGuard Nat).poll 5).result = Poll.pending
    ∧ ((AsyncGuard.mk State.unSet (GuardConfig.mk (Timeout.duration 10))
        (some 0) : AsyncGuard Nat).poll 5).woke = false
    ∧ ((AsyncGuard.mk State.unSet (GuardConfig.mk Timeout.infinite)
        none : AsyncGuard Nat).poll 5).result = Poll.pending
    ∧ ((AsyncGuard.mk State.unSet (GuardConfig.mk Timeout.infinite)
        none : AsyncGuard Nat).poll 5).woke = true := by
  exact ⟨rfl, rfl, rfl, rfl⟩

/-- Claim C10: the marker-initialization prelude always yields a `some`
marker, and `poll` coincides everywhere with the copy whose
`None => Pending` arm was replaced by a deliberately different output —
hence that final `None` arm is unreachable in any sequential execution,
and `poll` (a total function here, as in the source a panic-free match)
returns for every policy, marker and cell state. -/
theorem C10_duration_none_arm_unreachable (α : Type) (g : AsyncGuard α)
    (t0 : Option Nat) (now : Nat) :
    (markerAfterInit t0 now).isSome = true
    ∧ g.poll now = g.pollNoNoneArm now := by
  constructor
  · cases t0 <;> simp [markerAfterInit]
  · rcases g with ⟨s, ⟨tmo⟩, gt0⟩
    cases tmo <;> cases gt0 <;> rfl

end Defender
